import Mathlib

/-!
Verification development for the `cfn-lambda-handler` library
(`src/cfn_lambda_handler/cfn_lambda_handler.py`), a decorator that adapts a
user resource-handler function to the AWS CloudFormation custom-resource
callback protocol.

The Python events and responses are JSON-like dictionaries.  We embed them as
association lists over a small value type.  External effects (the
`describe_stacks` call, the `boto3 invoke` call succeeding or raising, and
the current time `int(time.time())`) are passed in as explicit parameters.
The outcome of one invocation is either a callback delivery (with the body
that is serialized for transmission and the sanitized body that is logged) or
an asynchronous re-invocation with a payload.
-/

/-- JSON-like values occurring in events and responses. -/
inductive Val where
  | str : String → Val
  | nat : Nat → Val
  | obj : List (String × Val) → Val

/-- Python truthiness for the values we model: non-empty string, non-zero
number, non-empty mapping. -/
def Val.truthy : Val → Bool
  | Val.str s => !s.isEmpty
  | Val.nat n => n != 0
  | Val.obj d => !d.isEmpty

/-- Read a value as a number (only used on numeric fields). -/
def Val.asNat : Val → Nat
  | Val.nat n => n
  | _ => 0

/-- Read a value as a string (only used on string fields). -/
def Val.asStr : Val → String
  | Val.str s => s
  | _ => ""

/-- Compare a value against a string key (dictionary-key equality of the
Python routing value with a registered string key). -/
def Val.eqStr : Val → String → Bool
  | Val.str a, b => a = b
  | _, _ => false

/-- A Python dictionary with string keys, as an association list
(first occurrence wins on lookup; `dictSet` keeps keys unique). -/
abbrev Dict := List (String × Val)

/-- `d.get(k)` -/
def dictGet : Dict → String → Option Val
  | [], _ => none
  | (k0, v0) :: rest, k => if k0 = k then some v0 else dictGet rest k

/-- `d[k]` on a key that the protocol guarantees present
(absent keys, a `KeyError` in Python, are outside the modelled domain and
map to the empty string). -/
def dictGetBang (d : Dict) (k : String) : Val :=
  (dictGet d k).getD (Val.str "")

/-- `d[k] = v`: replace the existing entry in place, else append. -/
def dictSet : Dict → String → Val → Dict
  | [], k, v => [(k, v)]
  | (k0, v0) :: rest, k, v =>
      if k0 = k then (k, v) :: rest else (k0, v0) :: dictSet rest k v

/-- `d.pop(k, None)`: drop the entry for `k`. -/
def dictPop : Dict → String → Dict
  | [], _ => []
  | (k0, v0) :: rest, k =>
      if k0 = k then dictPop rest k else (k0, v0) :: dictPop rest k

/-- `d.update(b)`: write every entry of `b` into `d`, in order. -/
def dictUpdate (d : Dict) (b : Dict) : Dict :=
  b.foldl (fun acc kv => dictSet acc kv.1 kv.2) d

/-- `x or default` on an optional field lookup (Python `or`). -/
def pyOr (v : Option Val) (dflt : Val) : Val :=
  match v with
  | some x => if x.truthy then x else dflt
  | none => dflt

/-- `d.get(k)` followed by a truthiness test (`if d.get(k):`). -/
def pyTruthyGet (d : Dict) (k : String) : Option Val :=
  match dictGet d k with
  | some v => if v.truthy then some v else none
  | none => none

/-!
## Identity Assigner: `physical_resource_id`

The source derives the physical resource id as
`md5((stack_id + resource_id).encode('utf-8')).hexdigest()`.
We embed MD5 (RFC 1321) over byte lists, with 32-bit words as `Nat` reduced
modulo `2 ^ 32`.
-/

/-- `2 ^ 32`. -/
def M32 : Nat := 4294967296

/-- Rotate a 32-bit word left by `n`. -/
def rotl32 (x n : Nat) : Nat := ((x <<< n) ||| (x >>> (32 - n))) % M32

def md5F (b c d : Nat) : Nat := (b &&& c) ||| ((b ^^^ 4294967295) &&& d)

def md5G (b c d : Nat) : Nat := (d &&& b) ||| ((d ^^^ 4294967295) &&& c)

def md5H (b c d : Nat) : Nat := b ^^^ c ^^^ d

def md5I (b c d : Nat) : Nat := c ^^^ (b ||| (d ^^^ 4294967295))

/-- Per-round left-rotation amounts. -/
def md5S : List Nat :=
  [7, 12, 17, 22, 7, 12, 17, 22, 7, 12, 17, 22, 7, 12, 17, 22,
   5, 9, 14, 20, 5, 9, 14, 20, 5, 9, 14, 20, 5, 9, 14, 20,
   4, 11, 16, 23, 4, 11, 16, 23, 4, 11, 16, 23, 4, 11, 16, 23,
   6, 10, 15, 21, 6, 10, 15, 21, 6, 10, 15, 21, 6, 10, 15, 21]

/-- Per-round additive constants (`floor(abs(sin(i + 1)) * 2 ^ 32)`). -/
def md5K : List Nat :=
  [3614090360, 3905402710, 606105819, 3250441966,
   4118548399, 1200080426, 2821735955, 4249261313,
   1770035416, 2336552879, 4294925233, 2304563134,
   1804603682, 4254626195, 2792965006, 1236535329,
   4129170786, 3225465664, 643717713, 3921069994,
   3593408605, 38016083, 3634488961, 3889429448,
   568446438, 3275163606, 4107603335, 1163531501,
   2850285829, 4243563512, 1735328473, 2368359562,
   4294588738, 2272392833, 1839030562, 4259657740,
   2763975236, 1272893353, 4139469664, 3200236656,
   681279174, 3936430074, 3572445317, 76029189,
   3654602809, 3873151461, 530742520, 3299628645,
   4096336452, 1126891415, 2878612391, 4237533241,
   1700485571, 2399980690, 4293915773, 2240044497,
   1873313359, 4264355552, 2734768916, 1309151649,
   4149444226, 3174756917, 718787259, 3951481745]

/-- Little-endian bytes of a 32-bit word. -/
def leBytes4 (w : Nat) : List Nat :=
  [w % 256, w / 256 % 256, w / 65536 % 256, w / 16777216 % 256]

/-- Little-endian bytes of a 64-bit word. -/
def leBytes8 (n : Nat) : List Nat :=
  [n % 256, n / 256 % 256, n / 65536 % 256, n / 16777216 % 256,
   n / 4294967296 % 256, n / 1099511627776 % 256,
   n / 281474976710656 % 256, n / 72057594037927936 % 256]

/-- MD5 padding: append `0x80`, zero bytes to 56 mod 64, then the bit length
as a little-endian 64-bit word. -/
def md5pad (msg : List Nat) : List Nat :=
  let r := (msg.length + 1) % 64
  let zeros := (120 - r) % 64
  msg ++ 128 :: List.replicate zeros 0
      ++ leBytes8 ((msg.length * 8) % 18446744073709551616)

/-- Split into 64-byte chunks. -/
def chunks64 : List Nat → List (List Nat)
  | [] => []
  | b :: rest => ((b :: rest).take 64) :: chunks64 ((b :: rest).drop 64)
termination_by l => l.length
decreasing_by
  simp [List.length_drop]
  omega

/-- The `j`-th little-endian 32-bit word of a chunk. -/
def word_at (c : List Nat) (j : Nat) : Nat :=
  c.getD (4 * j) 0 + c.getD (4 * j + 1) 0 * 256
    + c.getD (4 * j + 2) 0 * 65536 + c.getD (4 * j + 3) 0 * 16777216

/-- One of the 64 MD5 rounds, on state `(A, B, C, D)`. -/
def md5round (m : Nat → Nat) (st : Nat × Nat × Nat × Nat) (i : Nat) :
    Nat × Nat × Nat × Nat :=
  let a := st.1
  let b := st.2.1
  let c := st.2.2.1
  let d := st.2.2.2
  let fg : Nat × Nat :=
    if i < 16 then (md5F b c d, i)
    else if i < 32 then (md5G b c d, (5 * i + 1) % 16)
    else if i < 48 then (md5H b c d, (3 * i + 5) % 16)
    else (md5I b c d, (7 * i) % 16)
  let f := (fg.1 + a + md5K.getD i 0 + m fg.2) % M32
  (d, (b + rotl32 f (md5S.getD i 0)) % M32, b, c)

/-- Process one 64-byte chunk. -/
def md5chunk (st : Nat × Nat × Nat × Nat) (chunk : List Nat) :
    Nat × Nat × Nat × Nat :=
  let r := (List.range 64).foldl (md5round (word_at chunk)) st
  ((st.1 + r.1) % M32, (st.2.1 + r.2.1) % M32,
   (st.2.2.1 + r.2.2.1) % M32, (st.2.2.2 + r.2.2.2) % M32)

/-- The MD5 state after absorbing the whole padded message. -/
def md5_core (msg : List Nat) : Nat × Nat × Nat × Nat :=
  (chunks64 (md5pad msg)).foldl md5chunk
    (1732584193, 4023233417, 2562383102, 271733878)

/-- The 16 digest bytes. -/
def md5_digest_bytes (msg : List Nat) : List Nat :=
  let s := md5_core msg
  leBytes4 s.1 ++ leBytes4 s.2.1 ++ leBytes4 s.2.2.1 ++ leBytes4 s.2.2.2

/-- A lowercase hexadecimal digit. -/
def hexDigit (n : Nat) : Char :=
  if n < 10 then Char.ofNat (48 + n) else Char.ofNat (87 + n)

/-- `hashlib` `hexdigest()`: two lowercase hex characters per digest byte. -/
def md5_hexdigest (msg : List Nat) : String :=
  String.mk ((md5_digest_bytes msg).flatMap
    (fun b => [hexDigit (b / 16 % 16), hexDigit (b % 16)]))

/-- UTF-8 bytes of a string. -/
def utf8Bytes (s : String) : List Nat :=
  s.toUTF8.toList.map (fun b => b.toNat)

/-- `physical_resource_id(stack_id, resource_id)` from the source:
the MD5 hex digest of the UTF-8 encoding of `stack_id + resource_id`. -/
def physical_resource_id (stack_id resource_id : String) : String :=
  md5_hexdigest (utf8Bytes (stack_id ++ resource_id))

/-!
## The request lifecycle: `cfn_handler`, `invoke`, `sanitize`, `Handler`

`cfn_handler(func, base_response, secure_attributes)` wraps a handler.  The
wrapped function mutates the incoming event (status enrichment, creation
time) and either performs one callback delivery or schedules one
re-invocation.  External effects are parameters:

* `cfnStatus`: the `(StackStatus, StackStatusReason)` pair that the
  `describe_stacks` block leaves in the event (it is `("UNKNOWN","UNKNOWN")`
  when the call fails or returns no stack);
* `invokeOk`: whether the `boto3` `invoke` call succeeds or raises;
* `now`: the value of `int(time.time())` during this invocation.

A handler call either returns a partial result dictionary, raises
`CfnLambdaExecutionTimeout(state)` (the continuation signal), or raises any
other exception (carrying some detail text).
-/

def SUCCESS : Val := Val.str "SUCCESS"

def FAILED : Val := Val.str "FAILED"

def TIMEOUT : Nat := 300

/-- What a handler invocation does: return, raise the continuation signal,
or raise anything else. -/
inductive HandlerResult where
  | ok : Dict → HandlerResult
  | CfnLambdaExecutionTimeout : Val → HandlerResult
  | err : String → HandlerResult

/-- The externally observable result of one wrapped invocation: one callback
delivery (callback URL, transmitted body, logged/sanitized body), or one
scheduled asynchronous re-invocation with its payload. -/
inductive Outcome where
  | deliver : String → Dict → Dict → Outcome
  | reinvoke : Dict → Outcome

def Outcome.isDeliver : Outcome → Bool
  | Outcome.deliver _ _ _ => true
  | Outcome.reinvoke _ => false

def Outcome.url : Outcome → String
  | Outcome.deliver u _ _ => u
  | Outcome.reinvoke _ => ""

def Outcome.body : Outcome → Dict
  | Outcome.deliver _ b _ => b
  | Outcome.reinvoke _ => []

def Outcome.logBody : Outcome → Dict
  | Outcome.deliver _ _ l => l
  | Outcome.reinvoke _ => []

/-- `invoke(event, context)`: set `EventStatus` to `'Poll'` on the event and
pass it as the payload of the asynchronous self-invocation. -/
def invoke (event : Dict) : Dict :=
  dictSet event "EventStatus" (Val.str "Poll")

/-- The masking of the `Data` mapping done by `sanitize`. -/
def maskData (d : List (String × Val)) (secure_attributes : List String) :
    List (String × Val) :=
  d.map (fun kv =>
    (kv.1, if kv.1 ∈ secure_attributes then Val.str "*******" else kv.2))

/-- `sanitize(response, secure_attributes)`: if the response has a truthy
`Data` mapping, replace the value of every secure key in it by the fixed
mask; otherwise return the response unchanged.  (Only mapping-valued `Data`
is in the modelled domain.) -/
def sanitize (response : Dict) (secure_attributes : List String) : Dict :=
  match pyTruthyGet response "Data" with
  | some (Val.obj d) =>
      dictSet response "Data" (Val.obj (maskData d secure_attributes))
  | _ => response

/-- The nine request fields popped from the response before serialization. -/
def stripKeys : List String :=
  ["ResourceProperties", "OldResourceProperties", "ServiceToken",
   "ResponseURL", "RequestType", "CreationTime", "ResourceType",
   "StackStatus", "StackStatusReason"]

def stripAll (r : Dict) : Dict := stripKeys.foldl dictPop r

/-- The tail of the decorator: pop the request fields, serialize the
response for transmission, sanitize it for the log line, and PUT it to the
event's `ResponseURL`. -/
def finishResponse (response : Dict) (event : Dict)
    (secure_attributes : List String) : Outcome :=
  Outcome.deliver (dictGetBang event "ResponseURL").asStr (stripAll response)
    (sanitize (stripAll response) secure_attributes)

/-- The initial response dictionary. -/
def baseResponse (event : Dict) : Dict :=
  [("StackId", dictGetBang event "StackId"),
   ("RequestId", dictGetBang event "RequestId"),
   ("LogicalResourceId", dictGetBang event "LogicalResourceId"),
   ("Status", SUCCESS)]

/-- The stack-status enrichment: for `Update` and `Delete` requests the
event receives the `(StackStatus, StackStatusReason)` pair obtained from
`describe_stacks` (degraded to `UNKNOWN` values on any failure). -/
def enrich (cfnStatus : String × String) (event : Dict) : Dict :=
  if (dictGetBang event "RequestType").eqStr "Update"
      || (dictGetBang event "RequestType").eqStr "Delete" then
    dictSet (dictSet event "StackStatus" (Val.str cfnStatus.1))
      "StackStatusReason" (Val.str cfnStatus.2)
  else event

/-- Physical resource id resolution: use a truthy `PhysicalResourceId` from
the event verbatim, else derive it from `StackId` and `LogicalResourceId`. -/
def withPhysicalId (event : Dict) (response : Dict) : Dict :=
  match pyTruthyGet event "PhysicalResourceId" with
  | some v => dictSet response "PhysicalResourceId" v
  | none =>
      dictSet response "PhysicalResourceId"
        (Val.str (physical_resource_id (dictGetBang event "StackId").asStr
          (dictGetBang event "LogicalResourceId").asStr))

/-- The response just before the handler runs: base fields, physical
resource id, then the truthy `base_response` merged on top. -/
def preResponse (base_response : Option Dict) (cfnStatus : String × String)
    (event : Dict) : Dict :=
  let r := withPhysicalId (enrich cfnStatus event) (baseResponse event)
  match base_response with
  | some b => if b.isEmpty then r else dictUpdate r b
  | none => r

/-- The event as the handler sees it: enriched, with
`event['CreationTime'] = event.get('CreationTime') or int(time.time())`. -/
def processedEvent (cfnStatus : String × String) (now : Nat) (event : Dict) :
    Dict :=
  dictSet (enrich cfnStatus event) "CreationTime"
    (pyOr (dictGet (enrich cfnStatus event) "CreationTime") (Val.nat now))

/-- The deadline check on the processed event:
`timeout = event.get('Timeout') or TIMEOUT`, and the check fires when
`timeout` is truthy and `int(time.time()) > event['CreationTime'] + timeout`. -/
def deadlineExceeded (now : Nat) (event : Dict) : Bool :=
  (pyOr (dictGet event "Timeout") (Val.nat TIMEOUT)).truthy
    && decide ((dictGetBang event "CreationTime").asNat
        + (pyOr (dictGet event "Timeout") (Val.nat TIMEOUT)).asNat < now)

/-- The response fields written when the deadline check fires. -/
def deadlineFail (timeout : Nat) : Dict :=
  [("Status", FAILED),
   ("Reason", Val.str ("The custom resource operation failed to complete within the user specified timeout of "
     ++ toString timeout ++ " seconds"))]

/-- The response fields written when re-invocation scheduling fails. -/
def invokeFail : Dict :=
  [("Status", FAILED),
   ("Reason", Val.str "Failed to invoke new Lambda function after maximum Lambda execution timeout")]

/-- The response fields written for any other handler exception. -/
def genericFail : Dict :=
  [("Status", FAILED),
   ("Reason", Val.str "Exception was raised while handling custom resource")]

/-- What the try/except of the decorator decides to do: respond with a
response dictionary (and the event whose `ResponseURL` receives it), or
return after scheduling a re-invocation. -/
inductive Phase where
  | respond : Dict → Dict → Phase
  | reinvokeNew : Dict → Phase

/-- The decorator body up to (not including) the pops and the callback. -/
def cfn_handler_phase (func : Dict → HandlerResult) (base_response : Option Dict)
    (cfnStatus : String × String) (invokeOk : Bool) (now : Nat)
    (event : Dict) : Phase :=
  if deadlineExceeded now (processedEvent cfnStatus now event) then
    Phase.respond
      (dictUpdate (preResponse base_response cfnStatus event)
        (deadlineFail (pyOr (dictGet (processedEvent cfnStatus now event) "Timeout")
          (Val.nat TIMEOUT)).asNat))
      (processedEvent cfnStatus now event)
  else
    match func (processedEvent cfnStatus now event) with
    | HandlerResult.ok d =>
        Phase.respond (dictUpdate (preResponse base_response cfnStatus event) d)
          (processedEvent cfnStatus now event)
    | HandlerResult.CfnLambdaExecutionTimeout st =>
        if invokeOk then
          Phase.reinvokeNew
            (invoke (dictSet (processedEvent cfnStatus now event) "EventState" st))
        else
          Phase.respond
            (dictUpdate (preResponse base_response cfnStatus event) invokeFail)
            (invoke (dictSet (processedEvent cfnStatus now event) "EventState" st))
    | HandlerResult.err _ =>
        Phase.respond
          (dictUpdate (preResponse base_response cfnStatus event) genericFail)
          (processedEvent cfnStatus now event)

/-- One invocation of the decorated handler. -/
def cfn_handler (func : Dict → HandlerResult) (base_response : Option Dict)
    (secure_attributes : List String) (cfnStatus : String × String)
    (invokeOk : Bool) (now : Nat) (event : Dict) : Outcome :=
  match cfn_handler_phase func base_response cfnStatus invokeOk now event with
  | Phase.respond r e => finishResponse r e secure_attributes
  | Phase.reinvokeNew payload => Outcome.reinvoke payload

/-- The fallback handler produced by `Handler._empty`. -/
def emptyHandler (event : Dict) : HandlerResult :=
  HandlerResult.ok
    [("Status", FAILED),
     ("Reason", Val.str ("No handler defined for request type "
       ++ (dictGetBang event "RequestType").asStr))]

/-- `self._handlers.get(request)`: the handler registration table keyed by
strings (`Create`, `Update`, `Delete`, `Poll`), looked up at the routing
value. -/
def lookupHandler : List (String × (Dict → HandlerResult)) → Val →
    Option (Dict → HandlerResult)
  | [], _ => none
  | (k, f) :: rest, r => if r.eqStr k then some f else lookupHandler rest r

/-- Dispatch on a routing key: a registered handler is wrapped with the
configured secure attributes; the fallback is wrapped with the defaults. -/
def dispatchOn (handlers : List (String × (Dict → HandlerResult)))
    (secure_attributes : List String) (cfnStatus : String × String)
    (invokeOk : Bool) (now : Nat) (event : Dict) (key : Val) : Outcome :=
  match lookupHandler handlers key with
  | some f => cfn_handler f none secure_attributes cfnStatus invokeOk now event
  | none => cfn_handler emptyHandler none [] cfnStatus invokeOk now event

/-- `Handler.__call__`: route on
`event.get('EventStatus') or event['RequestType']`. -/
def Handler.call (handlers : List (String × (Dict → HandlerResult)))
    (secure_attributes : List String) (cfnStatus : String × String)
    (invokeOk : Bool) (now : Nat) (event : Dict) : Outcome :=
  dispatchOn handlers secure_attributes cfnStatus invokeOk now event
    (pyOr (dictGet event "EventStatus") (dictGetBang event "RequestType"))


/-!
## Concrete fixtures used by witnesses and counterexamples
-/

/-- A well-formed `Create` event with explicit timing fields and a supplied
physical resource id. -/
def eventW : Dict :=
  [("StackId", Val.str "stack-1"), ("RequestId", Val.str "req-1"),
   ("LogicalResourceId", Val.str "lr-1"),
   ("PhysicalResourceId", Val.str "pid-1"),
   ("RequestType", Val.str "Create"), ("ResponseURL", Val.str "https://cb"),
   ("Timeout", Val.nat 50), ("CreationTime", Val.nat 100),
   ("ResourceProperties", Val.obj [("p", Val.str "v")])]

/-- `eventW` with the caller timeout override set to `0`. -/
def eventT0 : Dict := dictSet eventW "Timeout" (Val.nat 0)

section DictLemmas

theorem dictGet_set_self (d : Dict) (k : String) (v : Val) :
    dictGet (dictSet d k v) k = some v := by
  induction d with
  | nil => simp [dictSet, dictGet]
  | cons hd tl ih =>
      by_cases h : hd.1 = k
      · simp [dictSet, h, dictGet]
      · simp [dictSet, h, dictGet, ih]

theorem dictGet_set_ne (d : Dict) {k k2 : String} (v : Val) (h : k2 ≠ k) :
    dictGet (dictSet d k v) k2 = dictGet d k2 := by
  have h' : ¬ (k = k2) := fun hh => h hh.symm
  induction d with
  | nil => simp [dictSet, dictGet, h']
  | cons hd tl ih =>
      by_cases h1 : hd.1 = k
      · have h2 : ¬ (hd.1 = k2) := by rw [h1]; exact h'
        simp [dictSet, h1, dictGet, h', h2]
      · simp [dictSet, h1, dictGet, ih]

theorem dictGet_pop (d : Dict) (k k2 : String) :
    dictGet (dictPop d k) k2 = if k2 = k then none else dictGet d k2 := by
  induction d with
  | nil => simp [dictPop, dictGet]
  | cons hd tl ih =>
      by_cases h1 : hd.1 = k
      · rw [show dictPop (hd :: tl) k = dictPop tl k by simp [dictPop, h1]]
        rw [ih]
        by_cases h2 : k2 = k
        · simp [h2]
        · have h3 : ¬ (hd.1 = k2) := by rw [h1]; exact fun hh => h2 hh.symm
          simp [h2, dictGet, h3]
      · rw [show dictPop (hd :: tl) k = hd :: dictPop tl k by simp [dictPop, h1]]
        by_cases h2 : hd.1 = k2
        · have h3 : ¬ (k2 = k) := fun hh => h1 (h2.trans hh)
          simp [dictGet, h2, h3]
        · simp [dictGet, h2, ih]

theorem dictGet_foldl_pop_none (ks : List String) (r : Dict) (k : String)
    (h : dictGet r k = none) : dictGet (ks.foldl dictPop r) k = none := by
  induction ks generalizing r with
  | nil => simpa using h
  | cons a tl ih =>
      simp only [List.foldl_cons]
      apply ih
      rw [dictGet_pop]
      by_cases hk : k = a <;> simp [hk, h]

theorem dictGet_foldl_pop_mem (ks : List String) (r : Dict) (k : String)
    (h : k ∈ ks) : dictGet (ks.foldl dictPop r) k = none := by
  induction ks generalizing r with
  | nil => cases h
  | cons a tl ih =>
      simp only [List.foldl_cons]
      rcases List.mem_cons.mp h with h1 | h1
      · apply dictGet_foldl_pop_none
        rw [dictGet_pop]
        simp [h1]
      · exact ih _ h1

theorem dictGet_foldl_pop_notmem (ks : List String) (r : Dict) (k : String)
    (h : k ∉ ks) : dictGet (ks.foldl dictPop r) k = dictGet r k := by
  induction ks generalizing r with
  | nil => rfl
  | cons a tl ih =>
      simp only [List.foldl_cons]
      have ha : k ≠ a := fun hh => h (by simp [hh])
      have htl : k ∉ tl := fun hh => h (by simp [hh])
      rw [ih _ htl, dictGet_pop]
      simp [ha]

theorem dictGet_update_notmem (b : Dict) (r : Dict) (k : String)
    (h : k ∉ b.map Prod.fst) : dictGet (dictUpdate r b) k = dictGet r k := by
  induction b generalizing r with
  | nil => rfl
  | cons hd tl ih =>
      have h1 : k ≠ hd.1 := fun hh => h (by simp [hh])
      have h2 : k ∉ tl.map Prod.fst := fun hh => h (by simp [hh])
      simp only [dictUpdate, List.foldl_cons]
      rw [show tl.foldl (fun acc kv => dictSet acc kv.1 kv.2) (dictSet r hd.1 hd.2)
            = dictUpdate (dictSet r hd.1 hd.2) tl from rfl]
      rw [ih _ h2, dictGet_set_ne _ _ h1]

theorem dictGet_update_nodup (b : Dict) (r : Dict) (k : String) (v : Val)
    (hnd : (b.map Prod.fst).Nodup) (h : dictGet b k = some v) :
    dictGet (dictUpdate r b) k = some v := by
  induction b generalizing r with
  | nil => cases h
  | cons hd tl ih =>
      simp only [dictUpdate, List.foldl_cons]
      rw [show tl.foldl (fun acc kv => dictSet acc kv.1 kv.2) (dictSet r hd.1 hd.2)
            = dictUpdate (dictSet r hd.1 hd.2) tl from rfl]
      by_cases h1 : hd.1 = k
      · have hv : v = hd.2 := by
          simp [dictGet, h1] at h
          exact h.symm
        have hk : k ∉ tl.map Prod.fst := by
          rw [← h1]
          exact (List.nodup_cons.mp (by simpa using hnd)).1
        rw [dictGet_update_notmem _ _ _ hk, hv, ← h1, dictGet_set_self]
      · have htl : dictGet tl k = some v := by simpa [dictGet, h1] using h
        exact ih _ (List.nodup_cons.mp (by simpa using hnd)).2 htl

end DictLemmas

section PipelineLemmas

theorem body_finishResponse (r e : Dict) (secure : List String) :
    (finishResponse r e secure).body = stripAll r := rfl

theorem logBody_finishResponse (r e : Dict) (secure : List String) :
    (finishResponse r e secure).logBody = sanitize (stripAll r) secure := rfl

theorem url_finishResponse (r e : Dict) (secure : List String) :
    (finishResponse r e secure).url = (dictGetBang e "ResponseURL").asStr := rfl

theorem isDeliver_finishResponse (r e : Dict) (secure : List String) :
    (finishResponse r e secure).isDeliver = true := rfl

theorem dictGet_stripAll_mem (r : Dict) (k : String) (h : k ∈ stripKeys) :
    dictGet (stripAll r) k = none := dictGet_foldl_pop_mem _ _ _ h

theorem dictGet_stripAll_notmem (r : Dict) (k : String) (h : k ∉ stripKeys) :
    dictGet (stripAll r) k = dictGet r k := dictGet_foldl_pop_notmem _ _ _ h

theorem dictGet_enrich_ne (cs : String × String) (e : Dict) (k : String)
    (h1 : k ≠ "StackStatus") (h2 : k ≠ "StackStatusReason") :
    dictGet (enrich cs e) k = dictGet e k := by
  unfold enrich
  split
  · rw [dictGet_set_ne _ _ h2, dictGet_set_ne _ _ h1]
  · rfl

theorem dictGet_processedEvent_ne (cs : String × String) (now : Nat) (e : Dict)
    (k : String) (h0 : k ≠ "CreationTime") (h1 : k ≠ "StackStatus")
    (h2 : k ≠ "StackStatusReason") :
    dictGet (processedEvent cs now e) k = dictGet e k := by
  unfold processedEvent
  rw [dictGet_set_ne _ _ h0, dictGet_enrich_ne _ _ _ h1 h2]

theorem dictGet_processedEvent_creation (cs : String × String) (now : Nat)
    (e : Dict) :
    dictGet (processedEvent cs now e) "CreationTime"
      = some (pyOr (dictGet e "CreationTime") (Val.nat now)) := by
  unfold processedEvent
  rw [dictGet_set_self,
      dictGet_enrich_ne cs e "CreationTime" (by decide) (by decide)]

theorem truthy_nat {n : Nat} (h : n ≠ 0) : (Val.nat n).truthy = true := by
  simp [Val.truthy, h]

theorem pyOr_some_nat {n : Nat} (h : n ≠ 0) (dflt : Val) :
    pyOr (some (Val.nat n)) dflt = Val.nat n := by
  simp [pyOr, truthy_nat h]

theorem deadlineExceeded_explicit (cs : String × String) (now T S : Nat)
    (event : Dict)
    (hT : dictGet event "CreationTime" = some (Val.nat T)) (hT0 : T ≠ 0)
    (hS : dictGet event "Timeout" = some (Val.nat S)) (hS0 : S ≠ 0) :
    deadlineExceeded now (processedEvent cs now event) = decide (T + S < now) := by
  unfold deadlineExceeded
  rw [dictGet_processedEvent_ne cs now event "Timeout" (by decide) (by decide)
        (by decide), hS, pyOr_some_nat hS0]
  unfold dictGetBang
  rw [dictGet_processedEvent_creation, hT, pyOr_some_nat hT0]
  simp [truthy_nat hS0, Val.asNat]

theorem deadlineExceeded_default (cs : String × String) (now T : Nat)
    (event : Dict)
    (hTO : dictGet event "Timeout" = none
        ∨ dictGet event "Timeout" = some (Val.nat 0))
    (hT : dictGet event "CreationTime" = some (Val.nat T)) (hT0 : T ≠ 0) :
    deadlineExceeded now (processedEvent cs now event)
      = decide (T + TIMEOUT < now) := by
  unfold deadlineExceeded
  rw [dictGet_processedEvent_ne cs now event "Timeout" (by decide) (by decide)
        (by decide)]
  unfold dictGetBang
  rw [dictGet_processedEvent_creation, hT, pyOr_some_nat hT0]
  rcases hTO with h | h <;> rw [h] <;>
    simp [pyOr, Val.truthy, Val.asNat, TIMEOUT]

theorem cfn_handler_deadline (func : Dict → HandlerResult) (base : Option Dict)
    (secure : List String) (cs : String × String) (inv : Bool) (now : Nat)
    (event : Dict)
    (hE : deadlineExceeded now (processedEvent cs now event) = true) :
    cfn_handler func base secure cs inv now event
      = finishResponse
          (dictUpdate (preResponse base cs event)
            (deadlineFail (pyOr (dictGet (processedEvent cs now event) "Timeout")
              (Val.nat TIMEOUT)).asNat))
          (processedEvent cs now event) secure := by
  simp [cfn_handler, cfn_handler_phase, hE]

theorem cfn_handler_ok (func : Dict → HandlerResult) (base : Option Dict)
    (secure : List String) (cs : String × String) (inv : Bool) (now : Nat)
    (event : Dict) (d : Dict)
    (hE : deadlineExceeded now (processedEvent cs now event) = false)
    (hf : func (processedEvent cs now event) = HandlerResult.ok d) :
    cfn_handler func base secure cs inv now event
      = finishResponse (dictUpdate (preResponse base cs event) d)
          (processedEvent cs now event) secure := by
  simp [cfn_handler, cfn_handler_phase, hE, hf]

theorem cfn_handler_err (func : Dict → HandlerResult) (base : Option Dict)
    (secure : List String) (cs : String × String) (inv : Bool) (now : Nat)
    (event : Dict) (detail : String)
    (hE : deadlineExceeded now (processedEvent cs now event) = false)
    (hf : func (processedEvent cs now event) = HandlerResult.err detail) :
    cfn_handler func base secure cs inv now event
      = finishResponse (dictUpdate (preResponse base cs event) genericFail)
          (processedEvent cs now event) secure := by
  simp [cfn_handler, cfn_handler_phase, hE, hf]

theorem cfn_handler_continue_ok (func : Dict → HandlerResult)
    (base : Option Dict) (secure : List String) (cs : String × String)
    (now : Nat) (event : Dict) (st : Val)
    (hE : deadlineExceeded now (processedEvent cs now event) = false)
    (hf : func (processedEvent cs now event)
        = HandlerResult.CfnLambdaExecutionTimeout st) :
    cfn_handler func base secure cs true now event
      = Outcome.reinvoke
          (invoke (dictSet (processedEvent cs now event) "EventState" st)) := by
  simp [cfn_handler, cfn_handler_phase, hE, hf]

theorem cfn_handler_continue_fail (func : Dict → HandlerResult)
    (base : Option Dict) (secure : List String) (cs : String × String)
    (now : Nat) (event : Dict) (st : Val)
    (hE : deadlineExceeded now (processedEvent cs now event) = false)
    (hf : func (processedEvent cs now event)
        = HandlerResult.CfnLambdaExecutionTimeout st) :
    cfn_handler func base secure cs false now event
      = finishResponse (dictUpdate (preResponse base cs event) invokeFail)
          (invoke (dictSet (processedEvent cs now event) "EventState" st))
          secure := by
  simp [cfn_handler, cfn_handler_phase, hE, hf]

theorem statusReason_keys_nodup (rs : String) :
    (List.map Prod.fst [("Status", FAILED), ("Reason", Val.str rs)]).Nodup := by
  rw [show List.map Prod.fst [("Status", FAILED), ("Reason", Val.str rs)]
        = ["Status", "Reason"] from rfl]
  decide

theorem dictGet_update_statusReason_status (r : Dict) (rs : String) :
    dictGet (dictUpdate r [("Status", FAILED), ("Reason", Val.str rs)])
      "Status" = some FAILED :=
  dictGet_update_nodup _ _ _ _ (statusReason_keys_nodup rs) rfl

theorem dictGet_update_statusReason_reason (r : Dict) (rs : String) :
    dictGet (dictUpdate r [("Status", FAILED), ("Reason", Val.str rs)])
      "Reason" = some (Val.str rs) :=
  dictGet_update_nodup _ _ _ _ (statusReason_keys_nodup rs) rfl

end PipelineLemmas

/-- C2: for a Request Envelope with explicit nonzero `CreationTime = T` and
nonzero `Timeout = S`, processing at a time strictly greater than `T + S`
delivers a Failed response whose reason string cites `S`, and the outcome
does not depend on the registered handler (the handler is not invoked);
processing at a time less than or equal to `T + S` invokes the handler: the
delivered response is the pre-built response merged with the handler's
returned result. -/
theorem C2_soft_deadline (func : Dict → HandlerResult) (base : Option Dict)
    (secure : List String) (cs : String × String) (inv : Bool)
    (now T S : Nat) (event : Dict)
    (hT : dictGet event "CreationTime" = some (Val.nat T)) (hT0 : T ≠ 0)
    (hS : dictGet event "Timeout" = some (Val.nat S)) (hS0 : S ≠ 0) :
    (T + S < now →
      (cfn_handler func base secure cs inv now event).isDeliver = true
      ∧ dictGet (cfn_handler func base secure cs inv now event).body "Status"
          = some FAILED
      ∧ dictGet (cfn_handler func base secure cs inv now event).body "Reason"
          = some (Val.str ("The custom resource operation failed to complete within the user specified timeout of "
              ++ toString S ++ " seconds"))
      ∧ ∀ g, cfn_handler func base secure cs inv now event
          = cfn_handler g base secure cs inv now event)
    ∧ (now ≤ T + S →
      ∀ d, func (processedEvent cs now event) = HandlerResult.ok d →
        cfn_handler func base secure cs inv now event
          = finishResponse (dictUpdate (preResponse base cs event) d)
              (processedEvent cs now event) secure) := by
  have hte : dictGet (processedEvent cs now event) "Timeout"
      = some (Val.nat S) := by
    rw [dictGet_processedEvent_ne cs now event "Timeout" (by decide) (by decide)
          (by decide)]
    exact hS
  constructor
  · intro hlt
    have hE : deadlineExceeded now (processedEvent cs now event) = true := by
      rw [deadlineExceeded_explicit cs now T S event hT hT0 hS hS0]
      simpa using hlt
    have hrun := cfn_handler_deadline func base secure cs inv now event hE
    have hreason : (pyOr (dictGet (processedEvent cs now event) "Timeout")
        (Val.nat TIMEOUT)).asNat = S := by
      rw [hte, pyOr_some_nat hS0]
      rfl
    refine ⟨?_, ?_, ?_, ?_⟩
    · rw [hrun]; rfl
    · rw [hrun, body_finishResponse, dictGet_stripAll_notmem _ _ (by decide),
          hreason]
      exact dictGet_update_statusReason_status _ _
    · rw [hrun, body_finishResponse, dictGet_stripAll_notmem _ _ (by decide),
          hreason]
      exact dictGet_update_statusReason_reason _ _
    · intro g
      rw [hrun, cfn_handler_deadline g base secure cs inv now event hE]
  · intro hle d hf
    have hE : deadlineExceeded now (processedEvent cs now event) = false := by
      rw [deadlineExceeded_explicit cs now T S event hT hT0 hS hS0]
      exact decide_eq_false (Nat.not_lt.mpr hle)
    exact cfn_handler_ok func base secure cs inv now event d hE hf

/-- Witness for C2 at `now = 200`, `T = 100`, `S = 50` on `eventW`. -/
theorem C2_soft_deadline_witness :
    dictGet (cfn_handler (fun _ => HandlerResult.ok [("X", Val.str "y")])
        none [] ("UNKNOWN", "UNKNOWN") true 200 eventW).body "Status"
      = some FAILED :=
  ((C2_soft_deadline (fun _ => HandlerResult.ok [("X", Val.str "y")])
      none [] ("UNKNOWN", "UNKNOWN") true 200 100 50 eventW rfl (by decide)
      rfl (by decide)).1 (by decide)).2.1

/-- C1 as stated fails on the code: with the explicit override `Timeout = 0`
(a falsy value), `event.get('Timeout') or TIMEOUT` yields the default 300,
and at a current time past `CreationTime + 300` a deadline-exceeded Failed
response is delivered; the handler's result (the marker field `Handled`) is
not used. -/
theorem C1_counterexample :
    (cfn_handler (fun _ => HandlerResult.ok [("Handled", Val.str "yes")])
        none [] ("UNKNOWN", "UNKNOWN") true 1000 eventT0).isDeliver = true
    ∧ dictGet (cfn_handler (fun _ => HandlerResult.ok [("Handled", Val.str "yes")])
        none [] ("UNKNOWN", "UNKNOWN") true 1000 eventT0).body "Status"
        = some FAILED
    ∧ dictGet (cfn_handler (fun _ => HandlerResult.ok [("Handled", Val.str "yes")])
        none [] ("UNKNOWN", "UNKNOWN") true 1000 eventT0).body "Reason"
        = some (Val.str "The custom resource operation failed to complete within the user specified timeout of 300 seconds")
    ∧ dictGet (cfn_handler (fun _ => HandlerResult.ok [("Handled", Val.str "yes")])
        none [] ("UNKNOWN", "UNKNOWN") true 1000 eventT0).body "Handled"
        = none :=
  ⟨rfl, rfl, rfl, rfl⟩

/-- C1 (amended): for a Request Envelope whose `Timeout` field is `0` or
absent, the default timeout of 300 seconds is applied: the deadline check
fires exactly when the current time exceeds `CreationTime + 300`, producing
a Failed response citing 300 seconds without invoking the handler; within
that window the handler is always invoked and its result merged into the
delivered response. -/
theorem C1_default_timeout (func : Dict → HandlerResult) (base : Option Dict)
    (secure : List String) (cs : String × String) (inv : Bool)
    (now T : Nat) (event : Dict)
    (hTO : dictGet event "Timeout" = none
        ∨ dictGet event "Timeout" = some (Val.nat 0))
    (hT : dictGet event "CreationTime" = some (Val.nat T)) (hT0 : T ≠ 0) :
    (T + TIMEOUT < now →
      (cfn_handler func base secure cs inv now event).isDeliver = true
      ∧ dictGet (cfn_handler func base secure cs inv now event).body "Status"
          = some FAILED
      ∧ dictGet (cfn_handler func base secure cs inv now event).body "Reason"
          = some (Val.str ("The custom resource operation failed to complete within the user specified timeout of "
              ++ toString TIMEOUT ++ " seconds"))
      ∧ ∀ g, cfn_handler func base secure cs inv now event
          = cfn_handler g base secure cs inv now event)
    ∧ (now ≤ T + TIMEOUT →
      ∀ d, func (processedEvent cs now event) = HandlerResult.ok d →
        cfn_handler func base secure cs inv now event
          = finishResponse (dictUpdate (preResponse base cs event) d)
              (processedEvent cs now event) secure) := by
  have hreason : (pyOr (dictGet (processedEvent cs now event) "Timeout")
      (Val.nat TIMEOUT)).asNat = TIMEOUT := by
    rw [dictGet_processedEvent_ne cs now event "Timeout" (by decide) (by decide)
          (by decide)]
    rcases hTO with h | h <;> rw [h] <;> simp [pyOr, Val.truthy, Val.asNat]
  constructor
  · intro hlt
    have hE : deadlineExceeded now (processedEvent cs now event) = true := by
      rw [deadlineExceeded_default cs now T event hTO hT hT0]
      simpa using hlt
    have hrun := cfn_handler_deadline func base secure cs inv now event hE
    refine ⟨?_, ?_, ?_, ?_⟩
    · rw [hrun]; rfl
    · rw [hrun, body_finishResponse, dictGet_stripAll_notmem _ _ (by decide),
          hreason]
      exact dictGet_update_statusReason_status _ _
    · rw [hrun, body_finishResponse, dictGet_stripAll_notmem _ _ (by decide),
          hreason]
      exact dictGet_update_statusReason_reason _ _
    · intro g
      rw [hrun, cfn_handler_deadline g base secure cs inv now event hE]
  · intro hle d hf
    have hE : deadlineExceeded now (processedEvent cs now event) = false := by
      rw [deadlineExceeded_default cs now T event hTO hT hT0]
      exact decide_eq_false (Nat.not_lt.mpr hle)
    exact cfn_handler_ok func base secure cs inv now event d hE hf

/-- Witness for the amended C1: at `now = 300 ≤ 100 + 300` on the
`Timeout = 0` event the handler runs and its result is merged. -/
theorem C1_default_timeout_witness :
    cfn_handler (fun _ => HandlerResult.ok [("Out", Val.str "k")]) none []
        ("UNKNOWN", "UNKNOWN") true 300 eventT0
      = finishResponse
          (dictUpdate (preResponse none ("UNKNOWN", "UNKNOWN") eventT0)
            [("Out", Val.str "k")])
          (processedEvent ("UNKNOWN", "UNKNOWN") 300 eventT0) [] :=
  (C1_default_timeout (fun _ => HandlerResult.ok [("Out", Val.str "k")]) none
      [] ("UNKNOWN", "UNKNOWN") true 300 100 eventT0 (Or.inr rfl) rfl
      (by decide)).2 (by decide) _ rfl

/-- C3: when the handler raises `CfnLambdaExecutionTimeout` carrying state
`st` and the re-invocation call succeeds, no callback is delivered in this
invocation: the outcome is exactly one scheduled re-invocation whose payload
is the current (processed) Request Envelope with `EventStatus` set to
`"Poll"` and `EventState` set to `st`; every other field is carried over
unchanged, in particular the explicit `CreationTime`. -/
theorem C3_continuation_scheduled (func : Dict → HandlerResult)
    (base : Option Dict) (secure : List String) (cs : String × String)
    (now T : Nat) (event : Dict) (st : Val)
    (hT : dictGet event "CreationTime" = some (Val.nat T)) (hT0 : T ≠ 0)
    (hE : deadlineExceeded now (processedEvent cs now event) = false)
    (hf : func (processedEvent cs now event)
        = HandlerResult.CfnLambdaExecutionTimeout st) :
    cfn_handler func base secure cs true now event
      = Outcome.reinvoke
          (dictSet (dictSet (processedEvent cs now event) "EventState" st)
            "EventStatus" (Val.str "Poll"))
    ∧ dictGet (dictSet (dictSet (processedEvent cs now event) "EventState" st)
        "EventStatus" (Val.str "Poll")) "EventStatus" = some (Val.str "Poll")
    ∧ dictGet (dictSet (dictSet (processedEvent cs now event) "EventState" st)
        "EventStatus" (Val.str "Poll")) "EventState" = some st
    ∧ dictGet (dictSet (dictSet (processedEvent cs now event) "EventState" st)
        "EventStatus" (Val.str "Poll")) "CreationTime" = some (Val.nat T)
    ∧ ∀ k, k ≠ "EventStatus" → k ≠ "EventState" →
        dictGet (dictSet (dictSet (processedEvent cs now event) "EventState" st)
          "EventStatus" (Val.str "Poll")) k
          = dictGet (processedEvent cs now event) k := by
  refine ⟨?_, ?_, ?_, ?_, ?_⟩
  · rw [cfn_handler_continue_ok func base secure cs now event st hE hf]
    rfl
  · exact dictGet_set_self _ _ _
  · rw [dictGet_set_ne _ _ (by decide)]
    exact dictGet_set_self _ _ _
  · rw [dictGet_set_ne _ _ (by decide), dictGet_set_ne _ _ (by decide),
        dictGet_processedEvent_creation, hT, pyOr_some_nat hT0]
  · intro k h1 h2
    rw [dictGet_set_ne _ _ h1, dictGet_set_ne _ _ h2]

/-- Witness for C3 on `eventW` with state `{"step": 2}` at `now = 120`. -/
theorem C3_continuation_scheduled_witness :
    cfn_handler
        (fun _ => HandlerResult.CfnLambdaExecutionTimeout
          (Val.obj [("step", Val.nat 2)]))
        none [] ("UNKNOWN", "UNKNOWN") true 120 eventW
      = Outcome.reinvoke
          (dictSet (dictSet (processedEvent ("UNKNOWN", "UNKNOWN") 120 eventW)
              "EventState" (Val.obj [("step", Val.nat 2)]))
            "EventStatus" (Val.str "Poll")) :=
  (C3_continuation_scheduled
      (fun _ => HandlerResult.CfnLambdaExecutionTimeout
        (Val.obj [("step", Val.nat 2)]))
      none [] ("UNKNOWN", "UNKNOWN") 120 100 eventW
      (Val.obj [("step", Val.nat 2)]) rfl (by decide) (by decide) rfl).1

/-- C4: when the handler raises `CfnLambdaExecutionTimeout` but the
re-invocation call fails, this invocation delivers a Failed response with
the fixed scheduling-failure reason; the response goes through the normal
stripping, serialization and callback delivery. -/
theorem C4_continuation_schedule_failed (func : Dict → HandlerResult)
    (base : Option Dict) (secure : List String) (cs : String × String)
    (now : Nat) (event : Dict) (st : Val)
    (hE : deadlineExceeded now (processedEvent cs now event) = false)
    (hf : func (processedEvent cs now event)
        = HandlerResult.CfnLambdaExecutionTimeout st) :
    cfn_handler func base secure cs false now event
      = finishResponse (dictUpdate (preResponse base cs event) invokeFail)
          (invoke (dictSet (processedEvent cs now event) "EventState" st))
          secure
    ∧ (cfn_handler func base secure cs false now event).isDeliver = true
    ∧ dictGet (cfn_handler func base secure cs false now event).body "Status"
        = some FAILED
    ∧ dictGet (cfn_handler func base secure cs false now event).body "Reason"
        = some (Val.str "Failed to invoke new Lambda function after maximum Lambda execution timeout")
    ∧ (∀ k, k ∈ stripKeys →
        dictGet (cfn_handler func base secure cs false now event).body k = none)
    ∧ (cfn_handler func base secure cs false now event).logBody
        = sanitize (cfn_handler func base secure cs false now event).body
            secure := by
  have hrun := cfn_handler_continue_fail func base secure cs now event st hE hf
  refine ⟨hrun, ?_, ?_, ?_, ?_, ?_⟩
  · rw [hrun]; rfl
  · rw [hrun, body_finishResponse, dictGet_stripAll_notmem _ _ (by decide)]
    exact dictGet_update_statusReason_status _ _
  · rw [hrun, body_finishResponse, dictGet_stripAll_notmem _ _ (by decide)]
    exact dictGet_update_statusReason_reason _ _
  · intro k hk
    rw [hrun, body_finishResponse]
    exact dictGet_stripAll_mem _ _ hk
  · rw [hrun]; rfl

/-- Witness for C4 on `eventW` at `now = 120` with the scheduling call
failing. -/
theorem C4_continuation_schedule_failed_witness :
    dictGet (cfn_handler
        (fun _ => HandlerResult.CfnLambdaExecutionTimeout (Val.nat 1))
        none [] ("UNKNOWN", "UNKNOWN") false 120 eventW).body "Reason"
      = some (Val.str "Failed to invoke new Lambda function after maximum Lambda execution timeout") :=
  (C4_continuation_schedule_failed
      (fun _ => HandlerResult.CfnLambdaExecutionTimeout (Val.nat 1))
      none [] ("UNKNOWN", "UNKNOWN") 120 eventW (Val.nat 1) (by decide)
      rfl).2.2.2.1

/-- C5: when no handler is registered for the resolved routing key, the
dispatcher runs the fallback handler through the same `cfn_handler`
lifecycle pipeline, and (when the deadline check does not fire) the
delivered response has status FAILED and reason
`No handler defined for request type {RequestType}`, with the transient
request fields stripped as usual. -/
theorem C5_no_handler (handlers : List (String × (Dict → HandlerResult)))
    (secure : List String) (cs : String × String) (inv : Bool) (now : Nat)
    (event : Dict) (rt : String)
    (hrt : dictGet event "RequestType" = some (Val.str rt))
    (hroute : lookupHandler handlers
        (pyOr (dictGet event "EventStatus") (dictGetBang event "RequestType"))
        = none)
    (hE : deadlineExceeded now (processedEvent cs now event) = false) :
    Handler.call handlers secure cs inv now event
      = cfn_handler emptyHandler none [] cs inv now event
    ∧ (Handler.call handlers secure cs inv now event).isDeliver = true
    ∧ dictGet (Handler.call handlers secure cs inv now event).body "Status"
        = some FAILED
    ∧ dictGet (Handler.call handlers secure cs inv now event).body "Reason"
        = some (Val.str ("No handler defined for request type " ++ rt))
    ∧ ∀ k, k ∈ stripKeys →
        dictGet (Handler.call handlers secure cs inv now event).body k
          = none := by
  have hcall : Handler.call handlers secure cs inv now event
      = cfn_handler emptyHandler none [] cs inv now event := by
    unfold Handler.call dispatchOn
    rw [hroute]
  have hrt2 : dictGetBang (processedEvent cs now event) "RequestType"
      = Val.str rt := by
    unfold dictGetBang
    rw [dictGet_processedEvent_ne cs now event "RequestType" (by decide)
          (by decide) (by decide), hrt]
    rfl
  have hf : emptyHandler (processedEvent cs now event)
      = HandlerResult.ok
          [("Status", FAILED),
           ("Reason", Val.str ("No handler defined for request type " ++ rt))] := by
    unfold emptyHandler
    rw [hrt2]
    rfl
  have hrun := cfn_handler_ok emptyHandler none [] cs inv now event _ hE hf
  refine ⟨hcall, ?_, ?_, ?_, ?_⟩
  · rw [hcall, hrun]; rfl
  · rw [hcall, hrun, body_finishResponse,
        dictGet_stripAll_notmem _ _ (by decide)]
    exact dictGet_update_statusReason_status _ _
  · rw [hcall, hrun, body_finishResponse,
        dictGet_stripAll_notmem _ _ (by decide)]
    exact dictGet_update_statusReason_reason _ _
  · intro k hk
    rw [hcall, hrun, body_finishResponse]
    exact dictGet_stripAll_mem _ _ hk

/-- Witness for C5: an empty registration table on `eventW` yields the
`Create` fallback reason. -/
theorem C5_no_handler_witness :
    dictGet (Handler.call [] [] ("UNKNOWN", "UNKNOWN") true 120 eventW).body
        "Reason"
      = some (Val.str "No handler defined for request type Create") :=
  (C5_no_handler [] [] ("UNKNOWN", "UNKNOWN") true 120 eventW "Create" rfl
      rfl (by decide)).2.2.2.1

/-- C6: any handler failure other than the continuation signal produces a
Failed response with the fixed generic reason, and the delivered outcome
does not depend on the underlying exception detail (the detail appears
nowhere in the delivered body). -/
theorem C6_generic_failure (func : Dict → HandlerResult) (base : Option Dict)
    (secure : List String) (cs : String × String) (inv : Bool) (now : Nat)
    (event : Dict) (detail : String)
    (hE : deadlineExceeded now (processedEvent cs now event) = false)
    (hf : func (processedEvent cs now event) = HandlerResult.err detail) :
    cfn_handler func base secure cs inv now event
      = finishResponse (dictUpdate (preResponse base cs event) genericFail)
          (processedEvent cs now event) secure
    ∧ (cfn_handler func base secure cs inv now event).isDeliver = true
    ∧ dictGet (cfn_handler func base secure cs inv now event).body "Status"
        = some FAILED
    ∧ dictGet (cfn_handler func base secure cs inv now event).body "Reason"
        = some (Val.str "Exception was raised while handling custom resource")
    ∧ ∀ g detail2, g (processedEvent cs now event) = HandlerResult.err detail2 →
        cfn_handler g base secure cs inv now event
          = cfn_handler func base secure cs inv now event := by
  have hrun := cfn_handler_err func base secure cs inv now event detail hE hf
  refine ⟨hrun, ?_, ?_, ?_, ?_⟩
  · rw [hrun]; rfl
  · rw [hrun, body_finishResponse, dictGet_stripAll_notmem _ _ (by decide)]
    exact dictGet_update_statusReason_status _ _
  · rw [hrun, body_finishResponse, dictGet_stripAll_notmem _ _ (by decide)]
    exact dictGet_update_statusReason_reason _ _
  · intro g detail2 hg
    rw [hrun, cfn_handler_err g base secure cs inv now event detail2 hE hg]

/-- Witness for C6 with a failing handler carrying detail text `boom`. -/
theorem C6_generic_failure_witness :
    dictGet (cfn_handler (fun _ => HandlerResult.err "boom") none []
        ("UNKNOWN", "UNKNOWN") true 120 eventW).body "Reason"
      = some (Val.str "Exception was raised while handling custom resource") :=
  (C6_generic_failure (fun _ => HandlerResult.err "boom") none []
      ("UNKNOWN", "UNKNOWN") true 120 eventW "boom" (by decide) rfl).2.2.2.1

/-- C7: whatever the handler returns and whatever path the invocation takes,
none of the nine transient request fields is present in the delivered body
(a scheduled re-invocation delivers no body at all). -/
theorem C7_transient_fields_stripped (func : Dict → HandlerResult)
    (base : Option Dict) (secure : List String) (cs : String × String)
    (inv : Bool) (now : Nat) (event : Dict) (k : String)
    (hk : k ∈ stripKeys) :
    dictGet (cfn_handler func base secure cs inv now event).body k = none := by
  cases h : cfn_handler_phase func base cs inv now event with
  | respond r e =>
      rw [show cfn_handler func base secure cs inv now event
            = finishResponse r e secure by unfold cfn_handler; rw [h]]
      rw [body_finishResponse]
      exact dictGet_stripAll_mem _ _ hk
  | reinvokeNew p =>
      rw [show cfn_handler func base secure cs inv now event
            = Outcome.reinvoke p by unfold cfn_handler; rw [h]]
      rfl

/-- Witness for C7: a handler that writes `ResourceProperties` into its
result still delivers a body without it. -/
theorem C7_transient_fields_stripped_witness :
    dictGet (cfn_handler
        (fun _ => HandlerResult.ok [("ResourceProperties", Val.str "x")])
        none [] ("UNKNOWN", "UNKNOWN") true 120 eventW).body
        "ResourceProperties" = none :=
  C7_transient_fields_stripped
    (fun _ => HandlerResult.ok [("ResourceProperties", Val.str "x")])
    none [] ("UNKNOWN", "UNKNOWN") true 120 eventW "ResourceProperties"
    (by decide)

theorem sanitize_with_data (r : Dict) (secure : List String)
    (d : List (String × Val))
    (h : dictGet r "Data" = some (Val.obj d)) (hne : d ≠ []) :
    sanitize r secure = dictSet r "Data" (Val.obj (maskData d secure)) := by
  have htr : (Val.obj d).truthy = true := by
    cases d with
    | nil => exact absurd rfl hne
    | cons a tl => rfl
  have hpt : pyTruthyGet r "Data" = some (Val.obj d) := by
    unfold pyTruthyGet
    rw [h]
    simp [htr]
  unfold sanitize
  rw [hpt]

theorem dictGet_maskData (d : List (String × Val)) (secure : List String)
    (k : String) (v : Val) (h : dictGet d k = some v) :
    dictGet (maskData d secure) k
      = some (if k ∈ secure then Val.str "*******" else v) := by
  induction d with
  | nil => cases h
  | cons hd tl ih =>
      by_cases h1 : hd.1 = k
      · have hv : hd.2 = v := by
          have h' := h
          simp [dictGet, h1] at h'
          exact h'
        subst h1
        rw [show maskData (hd :: tl) secure
              = (hd.1, if hd.1 ∈ secure then Val.str "*******" else hd.2)
                  :: maskData tl secure from rfl]
        rw [show dictGet ((hd.1, if hd.1 ∈ secure then Val.str "*******"
              else hd.2) :: maskData tl secure) hd.1
              = some (if hd.1 ∈ secure then Val.str "*******" else hd.2) by
            simp [dictGet]]
        rw [hv]
      · have h2 : dictGet tl k = some v := by
          have h' := h
          simpa [dictGet, h1] using h'
        rw [show maskData (hd :: tl) secure
              = (hd.1, if hd.1 ∈ secure then Val.str "*******" else hd.2)
                  :: maskData tl secure from rfl]
        simp [dictGet, h1, ih h2]

/-- C8: when the handler's result carries a non-empty `Data` mapping, the
logged body is the sanitized serialization, in which every `Data` key in the
secure set is replaced by the fixed mask and every other key keeps its
value, while the body transmitted to the callback URL carries the real,
unmasked `Data` values. -/
theorem C8_redaction (func : Dict → HandlerResult) (base : Option Dict)
    (secure : List String) (cs : String × String) (inv : Bool) (now : Nat)
    (event : Dict) (result : Dict) (d : List (String × Val))
    (hE : deadlineExceeded now (processedEvent cs now event) = false)
    (hf : func (processedEvent cs now event) = HandlerResult.ok result)
    (hnodup : (result.map Prod.fst).Nodup)
    (hdata : dictGet result "Data" = some (Val.obj d)) (hne : d ≠ []) :
    (cfn_handler func base secure cs inv now event).isDeliver = true
    ∧ dictGet (cfn_handler func base secure cs inv now event).body "Data"
        = some (Val.obj d)
    ∧ (cfn_handler func base secure cs inv now event).logBody
        = sanitize (cfn_handler func base secure cs inv now event).body secure
    ∧ dictGet (cfn_handler func base secure cs inv now event).logBody "Data"
        = some (Val.obj (maskData d secure))
    ∧ ∀ k v, dictGet d k = some v →
        dictGet (maskData d secure) k
          = some (if k ∈ secure then Val.str "*******" else v) := by
  have hrun := cfn_handler_ok func base secure cs inv now event result hE hf
  have hstrip : dictGet (stripAll (dictUpdate (preResponse base cs event)
      result)) "Data" = some (Val.obj d) := by
    rw [dictGet_stripAll_notmem _ _ (by decide)]
    exact dictGet_update_nodup _ _ _ _ hnodup hdata
  refine ⟨?_, ?_, ?_, ?_, ?_⟩
  · rw [hrun]; rfl
  · rw [hrun, body_finishResponse]
    exact hstrip
  · rw [hrun]; rfl
  · rw [hrun, logBody_finishResponse, sanitize_with_data _ secure d hstrip hne,
        dictGet_set_self]
  · intro k v h
    exact dictGet_maskData d secure k v h

/-- Witness for C8: `Data = {"password": "x", "name": "y"}` with redaction
configured for `password`. -/
theorem C8_redaction_witness :
    dictGet (cfn_handler
        (fun _ => HandlerResult.ok
          [("Data", Val.obj [("password", Val.str "x"), ("name", Val.str "y")])])
        none ["password"] ("UNKNOWN", "UNKNOWN") true 120 eventW).logBody "Data"
      = some (Val.obj (maskData
          [("password", Val.str "x"), ("name", Val.str "y")] ["password"])) := by
  have h := C8_redaction
    (fun _ => HandlerResult.ok
      [("Data", Val.obj [("password", Val.str "x"), ("name", Val.str "y")])])
    none ["password"] ("UNKNOWN", "UNKNOWN") true 120 eventW
    [("Data", Val.obj [("password", Val.str "x"), ("name", Val.str "y")])]
    [("password", Val.str "x"), ("name", Val.str "y")]
    (by decide) rfl (by decide) rfl (by simp)
  exact h.2.2.2.1

theorem md5_digest_bytes_length (msg : List Nat) :
    (md5_digest_bytes msg).length = 16 := by
  unfold md5_digest_bytes leBytes4
  simp

theorem length_flatMap_two {α β : Type} (f : α → List β)
    (h : ∀ a, (f a).length = 2) (l : List α) :
    (l.flatMap f).length = 2 * l.length := by
  induction l with
  | nil => simp
  | cons a tl ih =>
      simp [List.flatMap_cons, h, ih]
      omega

theorem hexDigit_mem_charset :
    ∀ n, n < 16 → hexDigit n ∈ "0123456789abcdef".toList := by decide

/-- C9: `physical_resource_id` is a deterministic function of exactly its
two string inputs (it takes no time or randomness input): repeated
applications yield the byte-for-byte identical result, which is a
32-character string of lowercase hexadecimal digits. -/
theorem C9_physical_resource_id (s r : String) :
    physical_resource_id s r = physical_resource_id s r
    ∧ (physical_resource_id s r).length = 32
    ∧ ∀ c ∈ (physical_resource_id s r).toList,
        c ∈ "0123456789abcdef".toList := by
  refine ⟨rfl, ?_, ?_⟩
  · show (md5_hexdigest (utf8Bytes (s ++ r))).length = 32
    unfold md5_hexdigest
    rw [show (String.mk ((md5_digest_bytes (utf8Bytes (s ++ r))).flatMap
          (fun b => [hexDigit (b / 16 % 16), hexDigit (b % 16)]))).length
          = ((md5_digest_bytes (utf8Bytes (s ++ r))).flatMap
            (fun b => [hexDigit (b / 16 % 16), hexDigit (b % 16)])).length
          from rfl]
    rw [length_flatMap_two
          (fun b => [hexDigit (b / 16 % 16), hexDigit (b % 16)])
          (fun a => rfl), md5_digest_bytes_length]
  · intro c hc
    have hc2 : c ∈ (md5_digest_bytes (utf8Bytes (s ++ r))).flatMap
        (fun b => [hexDigit (b / 16 % 16), hexDigit (b % 16)]) := hc
    rcases List.mem_flatMap.mp hc2 with ⟨b, _, hcb⟩
    simp only [List.mem_cons, List.not_mem_nil, or_false] at hcb
    rcases hcb with h | h <;> rw [h]
    · exact hexDigit_mem_charset _ (Nat.mod_lt _ (by norm_num))
    · exact hexDigit_mem_charset _ (Nat.mod_lt _ (by norm_num))

/-- Witness for C9 at concrete inputs. -/
theorem C9_physical_resource_id_witness :
    (physical_resource_id "stack-1" "lr-1").length = 32 :=
  (C9_physical_resource_id "stack-1" "lr-1").2.1

/-- C10: dispatch routes on the `EventStatus` value itself whenever it is
truthy — falling back to the no-handler path when nothing is registered
under it, regardless of what is registered under the event's `RequestType` —
and routes on `RequestType` exactly when `EventStatus` is absent or falsy. -/
theorem C10_routing (handlers : List (String × (Dict → HandlerResult)))
    (secure : List String) (cs : String × String) (inv : Bool) (now : Nat)
    (event : Dict) :
    (∀ v, dictGet event "EventStatus" = some v → v.truthy = true →
      Handler.call handlers secure cs inv now event
        = dispatchOn handlers secure cs inv now event v)
    ∧ (∀ v, dictGet event "EventStatus" = some v → v.truthy = true →
        lookupHandler handlers v = none →
        Handler.call handlers secure cs inv now event
          = cfn_handler emptyHandler none [] cs inv now event)
    ∧ (dictGet event "EventStatus" = none →
        Handler.call handlers secure cs inv now event
          = dispatchOn handlers secure cs inv now event
              (dictGetBang event "RequestType"))
    ∧ (∀ v, dictGet event "EventStatus" = some v → v.truthy = false →
        Handler.call handlers secure cs inv now event
          = dispatchOn handlers secure cs inv now event
              (dictGetBang event "RequestType")) := by
  refine ⟨?_, ?_, ?_, ?_⟩
  · intro v hv ht
    unfold Handler.call
    rw [hv]
    simp [pyOr, ht]
  · intro v hv ht hlk
    unfold Handler.call
    rw [hv]
    simp [pyOr, ht, dispatchOn, hlk]
  · intro hv
    unfold Handler.call
    rw [hv]
    rfl
  · intro v hv ht
    unfold Handler.call
    rw [hv]
    simp [pyOr, ht]

/-- Witness for C10: a truthy `EventStatus` of `"Poll"` routes past a
registered `Create` handler to the no-handler fallback. -/
theorem C10_routing_witness :
    Handler.call [("Create", fun _ => HandlerResult.ok [])] []
        ("UNKNOWN", "UNKNOWN") true 120
        (dictSet eventW "EventStatus" (Val.str "Poll"))
      = cfn_handler emptyHandler none [] ("UNKNOWN", "UNKNOWN") true 120
          (dictSet eventW "EventStatus" (Val.str "Poll")) :=
  (C10_routing [("Create", fun _ => HandlerResult.ok [])] []
      ("UNKNOWN", "UNKNOWN") true 120
      (dictSet eventW "EventStatus" (Val.str "Poll"))).2.1
    (Val.str "Poll") rfl rfl rfl
